import Mathlib

/-!
Verification development for the kanidm-webui-ng authentication layer.

The definitions below are a shallow embedding of the TypeScript sources:
`src/api/auth.ts` (auth negotiation), `src/auth/AuthContext.tsx` (session
status, access evaluation, reauth), `src/utils/groupAccess.ts` (group
matching) and `src/components/CredentialSections.tsx` (credential update
session).  Network transport, the browser `fetch` result, WebAuthn
ceremonies and JavaScript environment functions (`Date.parse`, `Number`)
are modelled as explicit inputs; module-level mutable state
(`tokenStore`, `authSessionId`, React component state) is modelled as
explicit state records threaded through each operation.
-/

/-! ## Auth negotiator state (src/api/auth.ts) -/

/-- Mechanisms advertised in a `continue` response (`AuthAllowed` in the
generated schema).  Reauth handling inspects the string values `password`
and `totp` and objects with a `passkey` member. -/
inductive AuthAllowed
  | passwordMech
  | totpMech
  | passkeyMech (challenge : String)
  | otherMech (s : String)
  deriving DecidableEq, Repr

/-- The tagged `state` member of an `AuthResponse` body:
`success: credential`, `denied: reason`, or `continue: mechanisms`. -/
inductive AuthState
  | success (credential : String)
  | denied (reason : String)
  | cont (allowed : List AuthAllowed)
  deriving DecidableEq, Repr

/-- Body of a response from `POST /v1/auth` / `POST /v1/reauth`. -/
structure AuthResponse where
  state : AuthState
  deriving DecidableEq, Repr

/-- Module-level mutable state of `src/api/auth.ts`: the bearer token held
by `tokenStore` (its `get`/`set`/`clear` interface lives in the
`api/http` module, not present under `src/`; it is modelled from the
spec: the Session Store holds the current bearer credential) together
with the module variable `authSessionId`. -/
structure AuthModuleState where
  token : Option String
  authSessionId : Option String
  deriving DecidableEq, Repr

/-- `handleAuthResponse` (src/api/auth.ts:47-55).  On `success` the
credential is stored and the auth session id cleared; on `denied` only
the session id is cleared; otherwise the state is untouched.  Returns
the response unchanged alongside the new module state. -/
def handleAuthResponse (response : AuthResponse) (st : AuthModuleState) :
    AuthResponse × AuthModuleState :=
  match response.state with
  | .success credential => (response, { token := some credential, authSessionId := none })
  | .denied _ => (response, { st with authSessionId := none })
  | .cont _ => (response, st)

/-- Result of the `fetch` call inside `authRequest` / `reauthBegin` /
`logout`: HTTP status, whether it was 2xx (`response.ok`), the body text,
the optional `X-KANIDM-AUTH-SESSION-ID` response header, and the body
parsed as an `AuthResponse` (consulted only when `ok`). -/
structure HttpResponse where
  ok : Bool
  status : Nat
  bodyText : String
  sessionHeader : Option String
  json : AuthResponse
  deriving DecidableEq, Repr

/-- The error thrown on a non-2xx response:
`new Error ("Request failed (status): text")` keeps the raw status and
body text. -/
structure RequestError where
  status : Nat
  bodyText : String
  deriving DecidableEq, Repr

/-- `authRequest` (src/api/auth.ts:14-45), from the point the transport
response is available (request assembly — bearer and session headers —
does not change state and is elided).  The session header, when present,
replaces `authSessionId` before the `ok` check; a non-2xx response then
throws with the raw status and body text; a 2xx response is fed to
`handleAuthResponse`. -/
def authRequest (resp : HttpResponse) (st : AuthModuleState) :
    Except RequestError AuthResponse × AuthModuleState :=
  let st1 :=
    match resp.sessionHeader with
    | some h => { st with authSessionId := some h }
    | none => st
  if resp.ok then
    let (r, st2) := handleAuthResponse resp.json st1
    (.ok r, st2)
  else
    (.error { status := resp.status, bodyText := resp.bodyText }, st1)

/-- `reauthBegin` (src/api/auth.ts:135-166): same response handling as
`authRequest` (the source duplicates the logic for `POST /v1/reauth`). -/
def reauthBegin (resp : HttpResponse) (st : AuthModuleState) :
    Except RequestError AuthResponse × AuthModuleState :=
  let st1 :=
    match resp.sessionHeader with
    | some h => { st with authSessionId := some h }
    | none => st
  if resp.ok then
    let (r, st2) := handleAuthResponse resp.json st1
    (.ok r, st2)
  else
    (.error { status := resp.status, bodyText := resp.bodyText }, st1)

/-! ## Sign-out (src/auth/AuthContext.tsx, src/api/auth.ts) -/

/-- `AuthStatus` (src/auth/AuthContext.tsx:5). -/
inductive AuthStatus
  | checking
  | authenticated
  | unauthenticated
  deriving DecidableEq, Repr

/-- `UserProfile` (src/auth/AuthContext.tsx:7-10). -/
structure UserProfile where
  name : String
  displayName : String
  deriving DecidableEq, Repr

/-- The local authentication state cleared by sign-out: the module state
of `src/api/auth.ts` plus the provider state `status` and `user`. -/
structure LocalAuthState where
  token : Option String
  authSessionId : Option String
  status : AuthStatus
  user : Option UserProfile
  deriving DecidableEq, Repr

/-- `clearAuthToken` (src/api/auth.ts:193-196): clears the token store and
the auth session id. -/
def clearAuthToken (s : LocalAuthState) : LocalAuthState :=
  { s with token := none, authSessionId := none }

/-- `signOut` (src/auth/AuthContext.tsx:71-79).  The server `logout()`
call either returns or throws; its outcome is the `logoutResult` input.
The body is `try await logout() finally clearAuthToken(); setStatus;
setUser` — a `finally` with no `catch`, so the cleanup always runs and
the outcome of `logout()` (including a thrown error) then propagates to
the caller. -/
def signOut (logoutResult : Except RequestError Unit) (s : LocalAuthState) :
    Except RequestError Unit × LocalAuthState :=
  let s1 := clearAuthToken s
  let s2 := { s1 with status := .unauthenticated, user := none }
  (logoutResult, s2)

/-! ## Access evaluator: UAT expiry and privilege window
(src/auth/AuthContext.tsx:126-204) -/

/-- JavaScript environment functions used by `parseUatExpiry`:
`Date.parse` and `Number` applied to a string (with `none` modelling a
`NaN` result). -/
structure JsEnv where
  dateParse : String → Option Int
  toNumber : String → Option Int

/-- The `expiry` member of `uat.purpose.readwrite`: absent/null, a JSON
number, or a string. -/
inductive UatExpiry
  | nullE
  | num (n : Int)
  | str (s : String)
  deriving DecidableEq, Repr

/-- `parseUatExpiry` (src/auth/AuthContext.tsx:135-149): null/undefined
parses to null; a number below 10^12 is taken as epoch seconds and
scaled to milliseconds, otherwise as milliseconds; a string is tried
with `Date.parse` first and then as a numeric string with the same
magnitude rule; anything else is null. -/
def parseUatExpiry (env : JsEnv) : UatExpiry → Option Int
  | .nullE => none
  | .num n => some (if n < 1000000000000 then n * 1000 else n)
  | .str s =>
    match env.dateParse s with
    | some parsed => some parsed
    | none =>
      match env.toNumber s with
      | some numeric => some (if numeric < 1000000000000 then numeric * 1000 else numeric)
      | none => none

/-- The `purpose` member of a `UserAuthToken` as a JavaScript value:
absent (`undefined`), JSON `null`, a string (the read-only variant), an
object with a `readwrite` member carrying an `expiry`, or some other
object. -/
inductive Purpose
  | undef
  | nullP
  | strP (s : String)
  | objReadwrite (expiry : UatExpiry)
  | objOther
  deriving DecidableEq, Repr

/-- The JavaScript test `typeof purpose === "object"`: `null` and every
object (with or without a `readwrite` member) have object type; strings
and `undefined` do not. -/
def typeofObject : Purpose → Bool
  | .nullP => true
  | .objReadwrite _ => true
  | .objOther => true
  | _ => false

/-- The JavaScript test `"readwrite" in purpose`. -/
def hasReadwriteField : Purpose → Bool
  | .objReadwrite _ => true
  | _ => false

/-- Evaluating `purpose.readwrite.expiry`: defined only on the readwrite
object variant; on `null` the first member access throws, and on any
other object `purpose.readwrite` is `undefined` so the `.expiry` access
throws.  `Except.error` models the thrown `TypeError`. -/
def readReadwriteExpiry : Purpose → Except Unit UatExpiry
  | .objReadwrite e => .ok e
  | _ => .error ()

/-- `isReadwrite` (src/auth/AuthContext.tsx:151-159): guarded by object
type, non-null, and a `"readwrite" in purpose` membership test before
reading the expiry; a falsy (absent or zero) parsed expiry gives false;
otherwise true iff the expiry is more than 60 seconds after `now`. -/
def isReadwrite (env : JsEnv) (purpose : Purpose) (now : Int) : Bool :=
  if typeofObject purpose = true ∧ purpose ≠ .nullP ∧ hasReadwriteField purpose = true then
    match purpose with
    | .objReadwrite e =>
      match parseUatExpiry env e with
      | none => false
      | some expiry => if expiry = 0 then false else decide (expiry > now + 60000)
    | _ => false
  else false

/-- `isReadwrite` with the member access made explicit as the fallible
`readReadwriteExpiry`, to state that the guard makes the access safe. -/
def isReadwriteChecked (env : JsEnv) (purpose : Purpose) (now : Int) : Except Unit Bool :=
  if typeofObject purpose = true ∧ purpose ≠ .nullP ∧ hasReadwriteField purpose = true then
    match readReadwriteExpiry purpose with
    | .error _ => .error ()
    | .ok e =>
      match parseUatExpiry env e with
      | none => .ok false
      | some expiry => .ok (if expiry = 0 then false else decide (expiry > now + 60000))
  else .ok false

/-- A decoded `UserAuthToken`, reduced to the member the access
evaluator reads. -/
structure Uat where
  purpose : Purpose
  deriving DecidableEq, Repr

/-- `canEdit` (src/auth/AuthContext.tsx:188-191):
`uat ? isReadwrite(uat.purpose, now) : false`. -/
def canEdit (env : JsEnv) (uat : Option Uat) (now : Int) : Bool :=
  match uat with
  | some u => isReadwrite env u.purpose now
  | none => false

/-- `rwExpiry` (src/auth/AuthContext.tsx:193-195):
`uat && typeof uat.purpose === object ? parseUatExpiry(uat.purpose.readwrite.expiry) : null`.
The member access is unguarded beyond the `typeof` test, so it throws
(`Except.error`) whenever the purpose has object type but is not the
readwrite object variant. -/
def rwExpiry (env : JsEnv) (uat : Option Uat) : Except Unit (Option Int) :=
  match uat with
  | none => .ok none
  | some u =>
    if typeofObject u.purpose = true then
      match readReadwriteExpiry u.purpose with
      | .error _ => .error ()
      | .ok e => .ok (parseUatExpiry env e)
    else .ok none

/-- `unlockedMinutes` (src/auth/AuthContext.tsx:197-198):
`rwExpiry && rwExpiry > now ? Math.max(1, Math.ceil((rwExpiry - now) / 60000)) : null`.
A truthy expiry (present and non-zero) strictly in the future yields the
ceiling of the remaining time in minutes (the operand is positive there,
so integer `(d + 59999) / 60000` is that ceiling), with minimum 1. -/
def unlockedMinutes (rwExp : Option Int) (now : Int) : Option Int :=
  match rwExp with
  | some v => if v ≠ 0 ∧ v > now then some (max 1 ((v - now + 59999) / 60000)) else none
  | none => none

/-! ## Group-based access (src/utils/groupAccess.ts:6-13,
src/auth/AuthContext.tsx:120-133) -/

/-- The character mapping of JavaScript `toLowerCase()` on the ASCII
range (group names and the allow-list names are ASCII): each of `A`–`Z`
maps to its lowercase form, every other character is unchanged, which is
exactly `Char.toLower`. -/
def jsLower (c : Char) : Char :=
  c.toLower

/-- The first segment of `group.split` at `@`: the characters before the
first `@`, the whole list when no `@` occurs (and the empty list for the
empty name, matching the JavaScript behaviour on the empty string). -/
def takeUntilAt : List Char → List Char
  | [] => []
  | c :: cs => if c = '@' then [] else c :: takeUntilAt cs

/-- `normalizeGroupName` (src/utils/groupAccess.ts:6-8, duplicated at
src/auth/AuthContext.tsx:126-128): the portion of the name before the
first `@`, lowercased.  Strings are embedded as their character
lists. -/
def normalizeGroupName (group : List Char) : List Char :=
  (takeUntilAt group).map jsLower

/-- `hasAnyGroup` (src/utils/groupAccess.ts:10-13, duplicated at
src/auth/AuthContext.tsx:130-133): some member entry, normalized, is in
the set of lowercased allow-list names. -/
def hasAnyGroup (memberOf groups : List (List Char)) : Bool :=
  memberOf.any fun entry => groups.any fun g => g.map jsLower == normalizeGroupName entry

/-- Allow-list for self name writes (src/auth/AuthContext.tsx:120). -/
def SELF_NAME_WRITE_GROUPS : List (List Char) :=
  [String.toList "idm_all_persons", String.toList "idm_people_self_name_write"]

/-- Allow-list for self mail writes (src/auth/AuthContext.tsx:121). -/
def SELF_MAIL_WRITE_GROUPS : List (List Char) :=
  [String.toList "idm_people_self_mail_write"]

/-- Allow-list for self writes (src/auth/AuthContext.tsx:122). -/
def SELF_WRITE_GROUPS : List (List Char) :=
  [String.toList "idm_all_persons"]

/-- `AccessPermissions` (src/auth/AuthContext.tsx:106-110). -/
structure AccessPermissions where
  nameAllowed : Bool
  emailAllowed : Bool
  selfWriteAllowed : Bool
  deriving DecidableEq, Repr

/-- The `permissions` value (src/auth/AuthContext.tsx:179-186): each flag
tests the member list against its fixed allow-list. -/
def permissionsFor (memberOf : List (List Char)) : AccessPermissions :=
  { nameAllowed := hasAnyGroup memberOf SELF_NAME_WRITE_GROUPS
    emailAllowed := hasAnyGroup memberOf SELF_MAIL_WRITE_GROUPS
    selfWriteAllowed := hasAnyGroup memberOf SELF_WRITE_GROUPS }

/-! ## Reauth flow state (src/auth/AuthContext.tsx:165-344) -/

/-- The reauth-related provider state read and written by
`requestReauth` and the synchronous prefix of `beginReauth`. -/
structure ReauthState where
  status : AuthStatus
  reauthOpen : Bool
  reauthLoading : Bool
  reauthAllowed : List AuthAllowed
  reauthMessage : Option String
  reauthPassword : String
  reauthTotp : String
  deriving DecidableEq, Repr

/-- The synchronous prefix of `beginReauth`
(src/auth/AuthContext.tsx:223-233), up to and including dispatching the
`reauthBegin` network request: early return when not authenticated or
already loading; otherwise the modal is opened, the loading flag set and
the transient factor inputs cleared.  The returned boolean says whether
a reauth negotiation request was dispatched.  The asynchronous
continuation (response handling) runs only after the awaited response
arrives and is not part of this step. -/
def beginReauthStart (s : ReauthState) : ReauthState × Bool :=
  if s.status ≠ .authenticated then (s, false)
  else if s.reauthLoading then (s, false)
  else
    ({ s with reauthOpen := true, reauthLoading := true, reauthMessage := none,
              reauthAllowed := [], reauthPassword := "", reauthTotp := "" }, true)

/-- `requestReauth` (src/auth/AuthContext.tsx:341-344): a no-op when the
reauth flow is already open or in flight, otherwise it runs
`beginReauth` (whose synchronous prefix is `beginReauthStart`).  Two
calls in immediate succession both complete their synchronous part
before any awaited response arrives, so composing this step twice
models that schedule. -/
def requestReauth (s : ReauthState) : ReauthState × Bool :=
  if s.reauthOpen ∨ s.reauthLoading then (s, false)
  else beginReauthStart s

/-! ## Credential update session (src/components/CredentialSections.tsx) -/

/-- `CURegWarning` values handled by `describeWarning`
(src/components/CredentialSections.tsx:46-70); the default branch keeps
unknown warning strings. -/
inductive CURegWarning
  | mfaRequired
  | passkeyRequired
  | attestedPasskeyRequired
  | attestedResidentKeyRequired
  | webauthnAttestationUnsatisfiable
  | webauthnUserVerificationRequired
  | unsatisfiable
  | noValidCredentials
  | otherWarning (s : String)
  deriving DecidableEq, Repr

/-- `CURegState` — the `mfaregstate` member of a `CUStatus`.  The
generated schema file is not under `src/`; the variants are modelled
from the spec (§3): `Passkey(challenge)`, `TotpCheck(secret)`,
`TotpInvalidSha1`, `TotpTryAgain`, `TotpNameTryAgain(name)`, or none.
Challenge and secret payloads are kept opaque. -/
inductive CURegState
  | noneState
  | passkeyState (challenge : String)
  | totpCheck (secret : String)
  | totpInvalidSha1
  | totpTryAgain
  | totpNameTryAgain (name : String)
  deriving DecidableEq, Repr

/-- The `type_` member of a `CredentialDetail`
(cf. `hasPasswordCredential` and the `totpLabels` extraction,
src/components/CredentialSections.tsx:72-81,156-163). -/
inductive CredentialType
  | password
  | generatedPassword
  | passwordMfa (totpLabels : List String)
  | otherType (s : String)
  deriving DecidableEq, Repr

/-- A primary credential descriptor. -/
structure CredentialDetail where
  type_ : CredentialType
  deriving DecidableEq, Repr

/-- A passkey entry of a `CUStatus`. -/
structure PasskeyRef where
  uuid : String
  tag : String
  deriving DecidableEq, Repr

/-- The `CUStatus` snapshot returned by every credential-update call:
warnings, in-progress sub-enrollment state, primary credential,
passkeys, and the commit flag. -/
structure CUStatus where
  warnings : List CURegWarning
  mfaregstate : CURegState
  primary : Option CredentialDetail
  passkeys : List PasskeyRef
  can_commit : Bool
  deriving DecidableEq, Repr

/-- The intent payloads sent by `sendCredentialUpdate` from
`CredentialSections.tsx`: `passkeyinit`, `passkeyfinish`,
`passkeyremove`, a staged password, `totpgenerate`, `totpverify`
(whose code member is `Number(totpCode)`, `none` modelling `NaN`),
`totpacceptsha1`, `cancelmfareg`, and `primaryremove`. -/
inductive CUIntent
  | passkeyinit
  | passkeyfinish (label : String) (registration : String)
  | passkeyremove (uuid : String)
  | password (pw : String)
  | totpgenerate
  | totpverify (code : Option Int) (label : String)
  | totpacceptsha1
  | cancelmfareg
  | primaryremove
  deriving DecidableEq, Repr

/-- The TOTP provisioning payload built by `buildTotpPayload`
(`src/utils/totp`, not under `src/`; modelled from the spec: the
component derives a provisioning URI from the server secret).  Only its
identity matters to the claims, so it is kept as the URI. -/
structure TotpPayload where
  uri : String
  deriving DecidableEq, Repr

/-- The `CredentialSections` component state (fields of
src/components/CredentialSections.tsx:100-118) plus the parent-held
values it mutates through its callbacks: the `CUStatus` snapshot
(`onStatusChange`), the flow-scoped message (`onMessage`) and the
loading gate (`onLoadingChange`). -/
structure CState where
  password : String
  passwordConfirm : String
  showPasswordForm : Bool
  passkeyLabel : String
  passkeyLabelOpen : Bool
  pendingPasskey : Option String
  totpPayload : Option TotpPayload
  totpQr : Option String
  totpLabel : String
  totpCode : String
  totpError : Option String
  totpModalOpen : Bool
  totpSha1Warning : Bool
  passwordNotice : Option String
  totpCancelled : Bool
  loading : Bool
  status : CUStatus
  message : Option String
  deriving DecidableEq, Repr

/-- JavaScript whitespace test for `trim()` (space, tab, line feed and
carriage return — the whitespace characters arising in these label and
code inputs). -/
def isJsSpace (c : Char) : Bool :=
  c = ' ' ∨ c = '\t' ∨ c = '\n' ∨ c = '\r'

/-- JavaScript `trim()`: strips leading and trailing whitespace. -/
def jsTrim (s : String) : String :=
  ⟨((s.data.dropWhile isJsSpace).reverse.dropWhile isJsSpace).reverse⟩

/-- `extractPasskeyChallenge` (src/components/CredentialSections.tsx:32-37). -/
def extractPasskeyChallenge : CURegState → Option String
  | .passkeyState challenge => some challenge
  | _ => none

/-- `extractTotpSecret` (src/components/CredentialSections.tsx:39-44). -/
def extractTotpSecret : CURegState → Option String
  | .totpCheck secret => some secret
  | _ => none

/-- `hasPasswordCredential` (src/components/CredentialSections.tsx:72-81). -/
def hasPasswordCredential : Option CredentialDetail → Bool
  | none => false
  | some cred =>
    match cred.type_ with
    | .password => true
    | .generatedPassword => true
    | .passwordMfa _ => true
    | _ => false

/-- Each credential-update operation below takes the network call
`sendCredentialUpdate` as an oracle `net` from the sent intent to either
a thrown error (kept as its message string) or the next `CUStatus`, and
returns the new component state together with the list of intents it
sent.  Message values are kept as their i18n keys; catch-all handlers in
the source make every operation total. -/
abbrev CUNet := CUIntent → Except String CUStatus

/-- `beginPasskeyEnrollment` (src/components/CredentialSections.tsx:169-187).
`ceremony` is the external `performPasskeyCreation` WebAuthn call.  A
missing challenge in the response is thrown and caught by the same
handler as transport errors.  The status snapshot is never replaced
here (the source does not call `onStatusChange` in this operation). -/
def beginPasskeyEnrollment (net : CUNet) (ceremony : String → Except String String)
    (s : CState) : CState × List CUIntent :=
  let s1 := { s with loading := true, message := none }
  match net .passkeyinit with
  | .error e => ({ s1 with message := some e, loading := false }, [.passkeyinit])
  | .ok initStatus =>
    match extractPasskeyChallenge initStatus.mfaregstate with
    | none =>
      ({ s1 with message := some "messagePasskeyChallengeMissing", loading := false },
        [.passkeyinit])
    | some challenge =>
      match ceremony challenge with
      | .error e => ({ s1 with message := some e, loading := false }, [.passkeyinit])
      | .ok registration =>
        ({ s1 with pendingPasskey := some registration, passkeyLabel := "",
                   passkeyLabelOpen := true, loading := false }, [.passkeyinit])

/-- `submitPasskeyLabel` (src/components/CredentialSections.tsx:189-211):
no-op without a pending passkey; an empty trimmed label is rejected
locally before any network call. -/
def submitPasskeyLabel (net : CUNet) (s : CState) : CState × List CUIntent :=
  match s.pendingPasskey with
  | none => (s, [])
  | some registration =>
    if jsTrim s.passkeyLabel = "" then
      ({ s with message := some "messagePasskeyLabelRequired" }, [])
    else
      let s1 := { s with loading := true, message := none }
      match net (.passkeyfinish (jsTrim s.passkeyLabel) registration) with
      | .error e =>
        ({ s1 with message := some e, loading := false },
          [.passkeyfinish (jsTrim s.passkeyLabel) registration])
      | .ok next =>
        ({ s1 with status := next, passkeyLabel := "", pendingPasskey := none,
                   passkeyLabelOpen := false, message := some "messagePasskeyEnrolled",
                   loading := false },
          [.passkeyfinish (jsTrim s.passkeyLabel) registration])

/-- `removePasskey` (src/components/CredentialSections.tsx:213-226). -/
def removePasskey (net : CUNet) (uuid : String) (s : CState) : CState × List CUIntent :=
  let s1 := { s with loading := true, message := none }
  match net (.passkeyremove uuid) with
  | .error e => ({ s1 with message := some e, loading := false }, [.passkeyremove uuid])
  | .ok next => ({ s1 with status := next, loading := false }, [.passkeyremove uuid])

/-- `beginTotpEnrollment` (src/components/CredentialSections.tsx:260-285):
opens the TOTP modal and clears its transient fields up front, sends
`totpgenerate`, and on success stores the provisioning payload built
from the returned secret and replaces the status; a missing secret is
thrown and caught like a transport error (status unchanged).
`buildTotp` is `buildTotpPayload`. -/
def beginTotpEnrollment (net : CUNet) (buildTotp : String → TotpPayload)
    (s : CState) : CState × List CUIntent :=
  let s1 := { s with totpError := none, totpSha1Warning := false, totpLabel := "",
                     totpCode := "", totpModalOpen := true, totpCancelled := false }
  let s2 := if s1.totpPayload.isNone
    then { s1 with totpError := some "messageTotpLoading" } else s1
  let s3 := { s2 with loading := true }
  match net .totpgenerate with
  | .error e => ({ s3 with totpError := some e, loading := false }, [.totpgenerate])
  | .ok next =>
    match extractTotpSecret next.mfaregstate with
    | none =>
      ({ s3 with totpError := some "messageTotpSetupMissing", loading := false },
        [.totpgenerate])
    | some secret =>
      ({ s3 with totpPayload := some (buildTotp secret), totpError := none,
                 status := next, loading := false }, [.totpgenerate])

/-- `submitPasswordChange` (src/components/CredentialSections.tsx:228-258):
an empty password or a mismatch with its confirmation is rejected with a
local message before any network call; on success the status is
replaced, the form is reset, and when the new status warns
`MfaRequired`, TOTP enrollment is begun automatically.  `fpqe` is
`formatPasswordQualityError` applied to the error message (`none` when
the message carries no quality payload). -/
def submitPasswordChange (net : CUNet) (buildTotp : String → TotpPayload)
    (fpqe : String → Option String) (s : CState) : CState × List CUIntent :=
  if s.password = "" ∨ s.password ≠ s.passwordConfirm then
    ({ s with message := some "messagePasswordMismatch" }, [])
  else
    let s1 := { s with loading := true, message := none, totpCancelled := false }
    match net (.password s.password) with
    | .error e =>
      ({ s1 with message := some ((fpqe e).getD e), loading := false },
        [.password s.password])
    | .ok next =>
      let s2 := { s1 with status := next, password := "", passwordConfirm := "",
                          showPasswordForm := false,
                          passwordNotice := some "messagePasswordSetNotice",
                          message := some "messagePasswordStaged" }
      if next.warnings.contains .mfaRequired then
        let r := beginTotpEnrollment net buildTotp s2
        ({ r.1 with loading := false }, .password s.password :: r.2)
      else
        ({ s2 with loading := false }, [.password s.password])

/-- `submitTotpEnrollment` (src/components/CredentialSections.tsx:287-333):
no-op without a provisioning payload; without `acceptSha1`, an empty
trimmed label or code is rejected locally; otherwise `totpacceptsha1` or
`totpverify` is sent and the returned `mfaregstate` drives the outcome —
`TotpInvalidSha1` offers accept-anyway, `TotpTryAgain` sets a retry
message, `TotpNameTryAgain` echoes the rejected name, anything else
closes the modal and clears its fields; the returned status replaces
the snapshot in every successful case.  `toNum` is JavaScript `Number`
(`none` modelling `NaN`). -/
def submitTotpEnrollment (net : CUNet) (toNum : String → Option Int)
    (acceptSha1 : Bool) (s : CState) : CState × List CUIntent :=
  match s.totpPayload with
  | none => (s, [])
  | some _ =>
    if acceptSha1 = false ∧ (jsTrim s.totpLabel = "" ∨ jsTrim s.totpCode = "") then
      ({ s with totpError := some "messageTotpNameCodeRequired" }, [])
    else
      let s1 := { s with loading := true, totpError := none }
      let intent := if acceptSha1 then CUIntent.totpacceptsha1
        else CUIntent.totpverify (toNum s.totpCode) (jsTrim s.totpLabel)
      match net intent with
      | .error e => ({ s1 with totpError := some e, loading := false }, [intent])
      | .ok next =>
        let s2 :=
          match next.mfaregstate with
          | .totpInvalidSha1 =>
            { s1 with totpSha1Warning := true, totpError := some "messageTotpSha1" }
          | .totpTryAgain => { s1 with totpError := some "messageTotpTryAgain" }
          | .totpNameTryAgain name =>
            { s1 with totpError := some ("messageTotpNameInvalid " ++ name) }
          | _ =>
            { s1 with totpModalOpen := false, totpPayload := none, totpQr := none,
                      totpLabel := "", totpCode := "", totpSha1Warning := false,
                      totpCancelled := false }
        ({ s2 with status := next, loading := false }, [intent])

/-- `cancelTotpEnrollment` (src/components/CredentialSections.tsx:335-353). -/
def cancelTotpEnrollment (net : CUNet) (s : CState) : CState × List CUIntent :=
  let s1 := { s with loading := true, totpError := none }
  match net .cancelmfareg with
  | .error e => ({ s1 with totpError := some e, loading := false }, [.cancelmfareg])
  | .ok next =>
    ({ s1 with status := next, totpModalOpen := false, totpPayload := none,
               totpQr := none, totpLabel := "", totpCode := "",
               totpSha1Warning := false, totpCancelled := true, loading := false },
      [.cancelmfareg])

/-- `removePrimaryCredential` (src/components/CredentialSections.tsx:355-370). -/
def removePrimaryCredential (net : CUNet) (s : CState) : CState × List CUIntent :=
  let s1 := { s with loading := true, message := none }
  match net .primaryremove with
  | .error e => ({ s1 with message := some e, loading := false }, [.primaryremove])
  | .ok next =>
    ({ s1 with status := next, passwordNotice := none, showPasswordForm := false,
               totpCancelled := false, message := some "messagePasswordRemoved",
               loading := false }, [.primaryremove])

/-! ## Theorems for C1, C3, C4 -/

/-- C1: for every auth/reauth negotiation response, `handleAuthResponse`
on `Success` stores the returned credential and clears the auth session
handle; on `Denied` it clears the handle and leaves the credential
unchanged; on `Continue` it changes neither (the handle is only ever
replaced from the response header, which is outside this function). -/
theorem handleAuthResponse_outcomes_c1 :
    ∀ (st : AuthModuleState) (r : AuthResponse),
      (∀ credential, r.state = .success credential →
        (handleAuthResponse r st).2.token = some credential ∧
        (handleAuthResponse r st).2.authSessionId = none) ∧
      (∀ reason, r.state = .denied reason →
        (handleAuthResponse r st).2.authSessionId = none ∧
        (handleAuthResponse r st).2.token = st.token) ∧
      (∀ allowed, r.state = .cont allowed →
        (handleAuthResponse r st).2 = st) := by
  intro st r
  refine ⟨?_, ?_, ?_⟩
  · intro credential h
    simp [handleAuthResponse, h]
  · intro reason h
    simp [handleAuthResponse, h]
  · intro allowed h
    simp [handleAuthResponse, h]

/-- Witness for C1: a concrete success, denial and continue response. -/
theorem handleAuthResponse_outcomes_c1_witness :
    (handleAuthResponse ⟨.success "cred"⟩ ⟨some "old", some "sess"⟩).2.token = some "cred" ∧
    (handleAuthResponse ⟨.success "cred"⟩ ⟨some "old", some "sess"⟩).2.authSessionId = none ∧
    (handleAuthResponse ⟨.denied "bad"⟩ ⟨some "old", some "sess"⟩).2.authSessionId = none ∧
    (handleAuthResponse ⟨.denied "bad"⟩ ⟨some "old", some "sess"⟩).2.token = some "old" ∧
    (handleAuthResponse ⟨.cont []⟩ ⟨some "old", some "sess"⟩).2 = ⟨some "old", some "sess"⟩ := by
  refine ⟨?_, ?_, ?_, ?_, ?_⟩
  · exact ((handleAuthResponse_outcomes_c1 ⟨some "old", some "sess"⟩ ⟨.success "cred"⟩).1 "cred" rfl).1
  · exact ((handleAuthResponse_outcomes_c1 ⟨some "old", some "sess"⟩ ⟨.success "cred"⟩).1 "cred" rfl).2
  · exact ((handleAuthResponse_outcomes_c1 ⟨some "old", some "sess"⟩ ⟨.denied "bad"⟩).2.1 "bad" rfl).1
  · exact ((handleAuthResponse_outcomes_c1 ⟨some "old", some "sess"⟩ ⟨.denied "bad"⟩).2.1 "bad" rfl).2
  · exact (handleAuthResponse_outcomes_c1 ⟨some "old", some "sess"⟩ ⟨.cont []⟩).2.2 [] rfl

/-- Counterexample for C3: a non-2xx response that carries the
`X-KANIDM-AUTH-SESSION-ID` header does mutate the Auth Session Handle
(the header is applied before the `ok` check), contradicting the claim
that a failed call mutates neither handle nor credential. -/
theorem authRequest_error_mutates_handle_c3 :
    (authRequest ⟨false, 500, "boom", some "new", ⟨.denied "x"⟩⟩
        ⟨some "tok", some "old"⟩).2.authSessionId ≠ some "old" := by
  decide

/-- C3 (amended): a non-2xx transport response from `authRequest` or
`reauthBegin` fails with an error carrying the raw HTTP status and body
text, leaves the stored bearer credential unchanged, and leaves the Auth
Session Handle unchanged unless the failed response itself carried a
session-id header, in which case the handle is replaced by that header
value. -/
theorem authRequest_reauthBegin_error_c3 :
    ∀ (resp : HttpResponse) (st : AuthModuleState), resp.ok = false →
      (authRequest resp st).1 = .error { status := resp.status, bodyText := resp.bodyText } ∧
      (authRequest resp st).2.token = st.token ∧
      (authRequest resp st).2.authSessionId =
        (match resp.sessionHeader with
         | some h => some h
         | none => st.authSessionId) ∧
      (reauthBegin resp st).1 = .error { status := resp.status, bodyText := resp.bodyText } ∧
      (reauthBegin resp st).2.token = st.token ∧
      (reauthBegin resp st).2.authSessionId =
        (match resp.sessionHeader with
         | some h => some h
         | none => st.authSessionId) := by
  intro resp st hok
  cases hs : resp.sessionHeader <;>
    simp [authRequest, reauthBegin, hok, hs]

/-- Witness for C3 (amended): a concrete failed call with and without a
session header. -/
theorem authRequest_reauthBegin_error_c3_witness :
    (authRequest ⟨false, 500, "boom", some "new", ⟨.denied "x"⟩⟩
        ⟨some "tok", some "old"⟩).1 = .error ⟨500, "boom"⟩ ∧
    (authRequest ⟨false, 500, "boom", some "new", ⟨.denied "x"⟩⟩
        ⟨some "tok", some "old"⟩).2.token = some "tok" ∧
    (authRequest ⟨false, 500, "boom", some "new", ⟨.denied "x"⟩⟩
        ⟨some "tok", some "old"⟩).2.authSessionId = some "new" := by
  have h := authRequest_reauthBegin_error_c3
    ⟨false, 500, "boom", some "new", ⟨.denied "x"⟩⟩ ⟨some "tok", some "old"⟩ rfl
  exact ⟨h.1, h.2.1, h.2.2.1⟩

/-- Counterexample for C4: when the server logout call fails, `signOut`
surfaces that failure to its caller (the `try`/`finally` has no `catch`),
contradicting the claim that the error is swallowed and sign-out always
completes without surfacing it. -/
theorem signOut_error_surfaces_c4 :
    (signOut (.error ⟨500, "boom"⟩)
        ⟨some "tok", some "sess", .authenticated, some ⟨"alice", "Alice"⟩⟩).1 =
      .error ⟨500, "boom"⟩ := rfl

/-- C4 (amended): `signOut` clears all local authentication state (bearer
credential, auth session handle, user profile, status set to
unauthenticated) in a guaranteed-cleanup block regardless of the server
logout outcome, and then propagates that outcome unchanged — a
server-side failure is re-raised after the local clear, not swallowed. -/
theorem signOut_clears_and_propagates_c4 :
    ∀ (logoutResult : Except RequestError Unit) (s : LocalAuthState),
      (signOut logoutResult s).2 =
        { token := none, authSessionId := none,
          status := .unauthenticated, user := none } ∧
      (signOut logoutResult s).1 = logoutResult := by
  intro logoutResult s
  exact ⟨rfl, rfl⟩

/-- Counterexample for C2: with a readwrite expiry 45000 ms in the
future (inside the claimed 60-second margin, so the claim requires a
null window), the code computes `unlockedMinutes = 1`: the null
condition in the source is `expiry ≤ now`, not `expiry − now ≤ 60000`. -/
theorem unlockedMinutes_margin_counterexample_c2 :
    (2000000000000 : Int) - (2000000000000 - 45000) ≤ 60000 ∧
    unlockedMinutes
      (parseUatExpiry ⟨fun _ => none, fun _ => none⟩ (.num 2000000000000))
      (2000000000000 - 45000) = some 1 := by
  constructor
  · decide
  · decide

/-- Helper: `isReadwrite` on the readwrite object variant passes its
guard and evaluates the parsed expiry. -/
theorem isReadwrite_objReadwrite (env : JsEnv) (e : UatExpiry) (now : Int) :
    isReadwrite env (.objReadwrite e) now =
      (match parseUatExpiry env e with
       | none => false
       | some expiry => if expiry = 0 then false else decide (expiry > now + 60000)) := by
  simp [isReadwrite, typeofObject, hasReadwriteField]

/-- C2 (amended): for a UAT readwrite expiry accepted as epoch seconds
below 10^12, as milliseconds otherwise, or as an ISO timestamp string,
the privilege window `unlockedMinutes` is null exactly when the parsed
expiry is absent, zero, or not strictly in the future (`e ≤ now` — the
60-second safety margin applies only to `canEdit`, not to the window
value); otherwise it is the ceiling of `(e − now)/60000` with minimum 1,
and it is monotonically non-increasing in `now` for fixed `e`.  In
particular for `e = now + 45000` ms, `canEdit` is false while
`unlockedMinutes` is 1, not null. -/
theorem unlockedMinutes_c2 :
    (∀ (e now : Int), (unlockedMinutes (some e) now = none ↔ (e = 0 ∨ e ≤ now))) ∧
    (∀ now, unlockedMinutes none now = none) ∧
    (∀ (e now₁ now₂ m₂ : Int), now₁ ≤ now₂ →
       unlockedMinutes (some e) now₂ = some m₂ →
       ∃ m₁, unlockedMinutes (some e) now₁ = some m₁ ∧ m₂ ≤ m₁) ∧
    (∀ (e now : Int), e ≠ 0 → now < e →
       unlockedMinutes (some e) now = some (max 1 ((e - now + 59999) / 60000))) ∧
    (∀ env n, parseUatExpiry env (.num n) =
       some (if n < 1000000000000 then n * 1000 else n)) ∧
    (∀ env s p, env.dateParse s = some p → parseUatExpiry env (.str s) = some p) ∧
    (∀ env (e : Int), 1000000000000 ≤ e →
       canEdit env (some ⟨.objReadwrite (.num e)⟩) (e - 45000) = false ∧
       unlockedMinutes (parseUatExpiry env (.num e)) (e - 45000) = some 1) := by
  refine ⟨?_, ?_, ?_, ?_, ?_, ?_, ?_⟩
  · intro e now
    simp only [unlockedMinutes]
    split
    · rename_i h
      simp only [reduceCtorEq, false_iff]
      omega
    · rename_i h
      simp only [true_iff]
      omega
  · intro now
    rfl
  · intro e now₁ now₂ m₂ h12 h2
    simp only [unlockedMinutes] at h2 ⊢
    split at h2
    · rename_i hc
      have hc1 : e ≠ 0 ∧ e > now₁ := ⟨hc.1, by omega⟩
      rw [if_pos hc1]
      refine ⟨_, rfl, ?_⟩
      have hm : m₂ = max 1 ((e - now₂ + 59999) / 60000) := by
        exact (Option.some_inj.mp h2).symm
      rw [hm]
      exact max_le_max le_rfl (by omega)
    · exact absurd h2 (by simp)
  · intro e now hne hlt
    simp only [unlockedMinutes]
    rw [if_pos ⟨hne, hlt⟩]
  · intro env n
    rfl
  · intro env s p hp
    simp [parseUatExpiry, hp]
  · intro env e he
    constructor
    · have hparse : parseUatExpiry env (.num e) = some e := by
        simp only [parseUatExpiry]
        rw [if_neg (show ¬(e : Int) < 1000000000000 by omega)]
      simp only [canEdit, isReadwrite_objReadwrite, hparse]
      rw [if_neg (show ¬(e : Int) = 0 by omega)]
      simp only [decide_eq_false_iff_not]
      omega
    · simp only [parseUatExpiry]
      have hnotlt : ¬(e < 1000000000000) := by omega
      rw [if_neg hnotlt]
      simp only [unlockedMinutes]
      have hc : e ≠ 0 ∧ e > e - 45000 := ⟨by omega, by omega⟩
      rw [if_pos hc]
      congr 1
      omega

/-- Witness for C2 (amended): concrete evaluations at expiry
2·10^12 ms and now = expiry − 45000. -/
theorem unlockedMinutes_c2_witness :
    (unlockedMinutes (some (2000000000000 : Int)) (2000000000000 - 45000) = none ↔
      ((2000000000000 : Int) = 0 ∨ (2000000000000 : Int) ≤ 2000000000000 - 45000)) ∧
    (∃ m₁, unlockedMinutes (some (2000000000000 : Int)) (2000000000000 - 90000) = some m₁ ∧
      1 ≤ m₁) ∧
    canEdit ⟨fun _ => none, fun _ => none⟩
      (some ⟨.objReadwrite (.num 2000000000000)⟩) (2000000000000 - 45000) = false := by
  refine ⟨?_, ?_, ?_⟩
  · exact unlockedMinutes_c2.1 2000000000000 (2000000000000 - 45000)
  · obtain ⟨m₁, hm₁, hle⟩ :=
      unlockedMinutes_c2.2.2.1 2000000000000 (2000000000000 - 90000)
        (2000000000000 - 45000) 1 (by decide) (by decide)
    exact ⟨m₁, hm₁, hle⟩
  · exact (unlockedMinutes_c2.2.2.2.2.2.2 ⟨fun _ => none, fun _ => none⟩
      2000000000000 (by decide)).1

/-- C10: `rwExpiry` reads `uat.purpose.readwrite.expiry` whenever the
purpose has object type, with no null or variant guard, so it faults
exactly when an object-typed purpose is not the readwrite object
variant; it is total under the precondition that every object-typed
purpose is the readwrite variant; the `canEdit` path (`isReadwrite`)
additionally guards with a null check and a membership test and is total
for every purpose value. -/
theorem rwExpiry_partiality_c10 :
    (∀ env (u : Uat),
       (rwExpiry env (some u) = .error () ↔
         (typeofObject u.purpose = true ∧ ∀ e, u.purpose ≠ .objReadwrite e))) ∧
    (∀ env (uat : Option Uat),
       (∀ u, uat = some u → typeofObject u.purpose = true →
          ∃ e, u.purpose = .objReadwrite e) →
       ∃ v, rwExpiry env uat = .ok v) ∧
    (∀ env p now, isReadwriteChecked env p now = .ok (isReadwrite env p now)) := by
  refine ⟨?_, ?_, ?_⟩
  · intro env u
    cases hp : u.purpose <;>
      simp [rwExpiry, typeofObject, readReadwriteExpiry, hp]
  · intro env uat hpre
    match huat : uat with
    | none => exact ⟨none, rfl⟩
    | some u =>
      cases hp : u.purpose with
      | objReadwrite e =>
        exact ⟨parseUatExpiry env e, by simp [rwExpiry, typeofObject, readReadwriteExpiry, hp]⟩
      | undef => exact ⟨none, by simp [rwExpiry, typeofObject, hp]⟩
      | strP s => exact ⟨none, by simp [rwExpiry, typeofObject, hp]⟩
      | nullP =>
        obtain ⟨e, he⟩ := hpre u rfl (by simp [typeofObject, hp])
        rw [hp] at he
        exact absurd he (by simp)
      | objOther =>
        obtain ⟨e, he⟩ := hpre u rfl (by simp [typeofObject, hp])
        rw [hp] at he
        exact absurd he (by simp)
  · intro env p now
    cases p with
    | objReadwrite e =>
      simp only [isReadwriteChecked, isReadwrite, typeofObject, hasReadwriteField,
        readReadwriteExpiry, ne_eq, reduceCtorEq, not_false_eq_true, and_true, true_and,
        if_true]
      cases parseUatExpiry env e <;> rfl
    | undef => rfl
    | nullP => rfl
    | strP s => rfl
    | objOther => rfl

/-- Witness for C10: the fault characterisation at a null purpose, the
totality at a readwrite purpose, and the guarded path at a null
purpose. -/
theorem rwExpiry_partiality_c10_witness :
    (rwExpiry ⟨fun _ => none, fun _ => none⟩ (some ⟨.nullP⟩) = .error () ↔
      (typeofObject Purpose.nullP = true ∧ ∀ e, Purpose.nullP ≠ .objReadwrite e)) ∧
    (∃ v, rwExpiry ⟨fun _ => none, fun _ => none⟩
      (some ⟨.objReadwrite .nullE⟩) = .ok v) ∧
    isReadwriteChecked ⟨fun _ => none, fun _ => none⟩ .nullP 0 =
      .ok (isReadwrite ⟨fun _ => none, fun _ => none⟩ .nullP 0) := by
  refine ⟨?_, ?_, ?_⟩
  · exact rwExpiry_partiality_c10.1 ⟨fun _ => none, fun _ => none⟩ ⟨.nullP⟩
  · exact rwExpiry_partiality_c10.2.1 ⟨fun _ => none, fun _ => none⟩
      (some ⟨.objReadwrite .nullE⟩)
      (fun u hu _ => by
        injection hu with h
        exact ⟨.nullE, by rw [← h]⟩)
  · exact rwExpiry_partiality_c10.2.2 ⟨fun _ => none, fun _ => none⟩ .nullP 0

/-- Helper: `jsLower` maps a character to `@` only if it is `@`. -/
theorem jsLower_eq_at_iff (c : Char) : jsLower c = '@' ↔ c = '@' := by
  constructor
  · intro h
    unfold jsLower Char.toLower at h
    simp only [ge_iff_le] at h
    split at h
    · rename_i hr
      exfalso
      have h64 : ('@' : Char).toNat = 64 := by decide
      have hv : (Char.ofNat (c.toNat + 32)).toNat = c.toNat + 32 := by
        have hvalid : (c.toNat + 32).isValidChar := by
          constructor
          omega
        rw [Char.ofNat, dif_pos hvalid]
        rfl
      rw [h, h64] at hv
      omega
    · exact h
  · intro h
    subst h
    decide

/-- Helper: names that agree letter-for-letter up to case normalize
identically. -/
theorem normalizeGroupName_eq_of_lower_eq :
    ∀ (x y : List Char), x.map jsLower = y.map jsLower →
      normalizeGroupName x = normalizeGroupName y := by
  intro x
  induction x with
  | nil =>
    intro y h
    cases y with
    | nil => rfl
    | cons b ys => simp at h
  | cons a xs ih =>
    intro y h
    cases y with
    | nil => simp at h
    | cons b ys =>
      simp only [List.map_cons, List.cons.injEq] at h
      obtain ⟨hab, hxy⟩ := h
      by_cases ha : a = '@'
      · have hb : b = '@' := by
          refine (jsLower_eq_at_iff b).mp ?_
          rw [← hab, ha]
          decide
        simp [normalizeGroupName, takeUntilAt, ha, hb]
      · have hb : b ≠ '@' := by
          intro hbeq
          refine ha ((jsLower_eq_at_iff a).mp ?_)
          rw [hab, hbeq]
          decide
        have ihr : normalizeGroupName xs = normalizeGroupName ys := ih ys hxy
        simp only [normalizeGroupName] at ihr ⊢
        rw [takeUntilAt, takeUntilAt, if_neg ha, if_neg hb]
        simp only [List.map_cons]
        rw [hab, ihr]

/-- Helper: appending an `@`-separated domain to a name without `@`
does not change its normalization. -/
theorem normalizeGroupName_append_domain :
    ∀ (x d : List Char), '@' ∉ x →
      normalizeGroupName (x ++ '@' :: d) = normalizeGroupName x := by
  intro x d
  induction x with
  | nil =>
    intro _
    simp [normalizeGroupName, takeUntilAt]
  | cons a xs ih =>
    intro hnot
    have ha : a ≠ '@' := fun h => hnot (h ▸ List.mem_cons_self a xs)
    have hxs : '@' ∉ xs := fun h => hnot (List.mem_cons_of_mem a h)
    have ihr : normalizeGroupName (xs ++ '@' :: d) = normalizeGroupName xs := ih hxs
    simp only [normalizeGroupName] at ihr ⊢
    rw [List.cons_append, takeUntilAt, takeUntilAt, if_neg ha, if_neg ha]
    simp only [List.map_cons]
    rw [ihr]

/-- Helper: `hasAnyGroup` depends on member entries only through their
normalized form. -/
theorem hasAnyGroup_congr (gs : List (List Char)) :
    ∀ (a b : List (List Char)),
      List.Forall₂ (fun x y => normalizeGroupName x = normalizeGroupName y) a b →
      hasAnyGroup a gs = hasAnyGroup b gs := by
  intro a b h
  induction h with
  | nil => rfl
  | cons hxy _ ih =>
    simp only [hasAnyGroup, List.any_cons] at ih ⊢
    simp only [hxy, ih]

/-- Helper: a flag is set iff some member entry normalizes into the
lowercased allow-list. -/
theorem hasAnyGroup_iff (memberOf groups : List (List Char)) :
    hasAnyGroup memberOf groups = true ↔
      ∃ e ∈ memberOf, normalizeGroupName e ∈ groups.map (List.map jsLower) := by
  simp only [hasAnyGroup, List.any_eq_true, beq_iff_eq, List.mem_map]

/-- C9: `permissionsFor` is invariant under per-entry changes of letter
case and under adding or removing an `@domain` suffix on names that
otherwise match (both transformations preserve the normalized name, and
the permissions depend only on normalized names); each of the three
flags is true iff the member list, matched case-insensitively on the
portion before any `@`, intersects that capability's fixed
allow-list. -/
theorem permissionsFor_c9 :
    (∀ a b, List.Forall₂ (fun x y => normalizeGroupName x = normalizeGroupName y) a b →
       permissionsFor a = permissionsFor b) ∧
    (∀ x y : List Char, x.map jsLower = y.map jsLower →
       normalizeGroupName x = normalizeGroupName y) ∧
    (∀ (x d : List Char), '@' ∉ x →
       normalizeGroupName (x ++ '@' :: d) = normalizeGroupName x) ∧
    (∀ m, ((permissionsFor m).nameAllowed = true ↔
             ∃ e ∈ m, normalizeGroupName e ∈ SELF_NAME_WRITE_GROUPS.map (List.map jsLower)) ∧
          ((permissionsFor m).emailAllowed = true ↔
             ∃ e ∈ m, normalizeGroupName e ∈ SELF_MAIL_WRITE_GROUPS.map (List.map jsLower)) ∧
          ((permissionsFor m).selfWriteAllowed = true ↔
             ∃ e ∈ m, normalizeGroupName e ∈ SELF_WRITE_GROUPS.map (List.map jsLower))) := by
  refine ⟨?_, normalizeGroupName_eq_of_lower_eq, normalizeGroupName_append_domain, ?_⟩
  · intro a b h
    simp only [permissionsFor, AccessPermissions.mk.injEq]
    exact ⟨hasAnyGroup_congr _ a b h, hasAnyGroup_congr _ a b h, hasAnyGroup_congr _ a b h⟩
  · intro m
    exact ⟨hasAnyGroup_iff m _, hasAnyGroup_iff m _, hasAnyGroup_iff m _⟩

/-- Witness for C9: a concrete case-changed, domain-suffixed member list
grants the same permissions as its lowercase, suffix-free form. -/
theorem permissionsFor_c9_witness :
    permissionsFor [String.toList "IDM_ALL_PERSONS@Example.COM"] =
      permissionsFor [String.toList "idm_all_persons"] ∧
    normalizeGroupName (String.toList "IDM_All_Persons") =
      normalizeGroupName (String.toList "idm_all_persons") ∧
    normalizeGroupName (String.toList "idm_all_persons" ++ '@' :: String.toList "example.com") =
      normalizeGroupName (String.toList "idm_all_persons") := by
  refine ⟨?_, ?_, ?_⟩
  · exact permissionsFor_c9.1 _ _ (List.Forall₂.cons (by decide) List.Forall₂.nil)
  · exact permissionsFor_c9.2.1 _ _ (by decide)
  · exact permissionsFor_c9.2.2.1 _ _ (by decide)

/-- Helper: a `requestReauth` step either leaves the state unchanged and
dispatches nothing, or opens the flow, sets the loading flag, clears the
transient inputs and dispatches the negotiation. -/
theorem requestReauth_cases (s : ReauthState) :
    requestReauth s = (s, false) ∨
    requestReauth s =
      ({ s with reauthOpen := true, reauthLoading := true, reauthMessage := none,
                reauthAllowed := [], reauthPassword := "", reauthTotp := "" }, true) := by
  unfold requestReauth beginReauthStart
  split
  · left
    rfl
  · split
    · left
      rfl
    · split
      · left
        rfl
      · right
        rfl

/-- C8: `requestReauth` is idempotent — when the reauth flow is already
open or in flight it is a no-op — and two calls in immediate succession
dispatch at most one reauth negotiation, exactly one when starting from
a closed, idle, authenticated state (the first call opens the flow and
sets the loading flag, so the second is a no-op). -/
theorem requestReauth_c8 :
    (∀ s : ReauthState, (s.reauthOpen = true ∨ s.reauthLoading = true) →
       requestReauth s = (s, false)) ∧
    (∀ s : ReauthState,
       (requestReauth s).2.toNat + (requestReauth (requestReauth s).1).2.toNat ≤ 1) ∧
    (∀ s : ReauthState, s.status = .authenticated → s.reauthOpen = false →
       s.reauthLoading = false →
       (requestReauth s).2 = true ∧ (requestReauth (requestReauth s).1).2 = false) := by
  refine ⟨?_, ?_, ?_⟩
  · intro s h
    simp only [requestReauth]
    rw [if_pos h]
  · intro s
    rcases requestReauth_cases s with h | h
    · simp [h]
    · rw [h]
      have h2 : requestReauth
          ({ s with reauthOpen := true, reauthLoading := true, reauthMessage := none,
                    reauthAllowed := [], reauthPassword := "", reauthTotp := "" }) =
          ({ s with reauthOpen := true, reauthLoading := true, reauthMessage := none,
                    reauthAllowed := [], reauthPassword := "", reauthTotp := "" }, false) := by
        simp [requestReauth]
      simp [h2]
  · intro s hs ho hl
    have h2 : requestReauth s =
        ({ s with reauthOpen := true, reauthLoading := true, reauthMessage := none,
                  reauthAllowed := [], reauthPassword := "", reauthTotp := "" }, true) := by
      simp only [requestReauth, beginReauthStart]
      rw [if_neg (by simp [ho, hl]), if_neg (by simp [hs]), if_neg (by simp [hl])]
    rw [h2]
    refine ⟨rfl, ?_⟩
    simp [requestReauth]

/-- Witness for C8: from a concrete closed, idle, authenticated state,
the first call dispatches the single negotiation and the second call is
a no-op; a concrete already-open state is untouched. -/
theorem requestReauth_c8_witness :
    requestReauth ⟨.authenticated, true, false, [], none, "", ""⟩ =
      (⟨.authenticated, true, false, [], none, "", ""⟩, false) ∧
    (requestReauth ⟨.authenticated, false, false, [], none, "", ""⟩).2 = true ∧
    (requestReauth (requestReauth ⟨.authenticated, false, false, [], none, "", ""⟩).1).2 = false := by
  refine ⟨?_, ?_, ?_⟩
  · exact requestReauth_c8.1 ⟨.authenticated, true, false, [], none, "", ""⟩ (Or.inl rfl)
  · exact (requestReauth_c8.2.2 ⟨.authenticated, false, false, [], none, "", ""⟩ rfl rfl rfl).1
  · exact (requestReauth_c8.2.2 ⟨.authenticated, false, false, [], none, "", ""⟩ rfl rfl rfl).2

/-- Helper: `beginTotpEnrollment` always sends exactly `totpgenerate`
and always leaves the TOTP modal open, whatever the response. -/
theorem beginTotpEnrollment_shape (net : CUNet) (buildTotp : String → TotpPayload)
    (s : CState) :
    (beginTotpEnrollment net buildTotp s).2 = [.totpgenerate] ∧
    (beginTotpEnrollment net buildTotp s).1.totpModalOpen = true := by
  unfold beginTotpEnrollment
  cases hnet : net .totpgenerate with
  | error e => cases hp : s.totpPayload <;> simp [hp]
  | ok next =>
    cases hsec : extractTotpSecret next.mfaregstate <;>
      cases hp : s.totpPayload <;> simp [hp, hsec]

/-- Helper: the result of `submitTotpEnrollment` on a successful
response, as one record per `mfaregstate` case. -/
theorem submitTotpEnrollment_ok (net : CUNet) (toNum : String → Option Int)
    (acceptSha1 : Bool) (s : CState) (p : TotpPayload) (next : CUStatus)
    (hp : s.totpPayload = some p)
    (hguard : acceptSha1 = true ∨ (jsTrim s.totpLabel ≠ "" ∧ jsTrim s.totpCode ≠ ""))
    (hnet : net (if acceptSha1 then CUIntent.totpacceptsha1
                 else CUIntent.totpverify (toNum s.totpCode) (jsTrim s.totpLabel)) = .ok next) :
    submitTotpEnrollment net toNum acceptSha1 s =
      (match next.mfaregstate with
       | .totpInvalidSha1 =>
         { s with totpSha1Warning := true, totpError := some "messageTotpSha1",
                  status := next, loading := false }
       | .totpTryAgain =>
         { s with totpError := some "messageTotpTryAgain", status := next, loading := false }
       | .totpNameTryAgain name =>
         { s with totpError := some ("messageTotpNameInvalid " ++ name),
                  status := next, loading := false }
       | _ =>
         { s with totpError := none, totpModalOpen := false, totpPayload := none,
                  totpQr := none, totpLabel := "", totpCode := "", totpSha1Warning := false,
                  totpCancelled := false, status := next, loading := false },
       [if acceptSha1 then CUIntent.totpacceptsha1
        else CUIntent.totpverify (toNum s.totpCode) (jsTrim s.totpLabel)]) := by
  have hng : ¬(acceptSha1 = false ∧ (jsTrim s.totpLabel = "" ∨ jsTrim s.totpCode = "")) := by
    rintro ⟨hfalse, hdisj⟩
    rcases hguard with htrue | ⟨hl, hc⟩
    · rw [htrue] at hfalse
      exact absurd hfalse (by decide)
    · rcases hdisj with h | h
      · exact hl h
      · exact hc h
  simp only [submitTotpEnrollment, hp]
  rw [if_neg hng]
  simp only [hnet]
  cases next.mfaregstate <;> rfl

/-- C5: `stagePasswordChange` rejects an empty password or a mismatch
with its confirmation locally, with a message and no network call; on a
successful response whose status warns `MfaRequired`, it stages the
password and then automatically begins TOTP enrollment (sending exactly
the staged password followed by `totpgenerate`), leaving the TOTP modal
open. -/
theorem submitPasswordChange_c5 :
    (∀ (net : CUNet) (buildTotp : String → TotpPayload) (fpqe : String → Option String)
       (s : CState),
       (s.password = "" ∨ s.password ≠ s.passwordConfirm) →
       submitPasswordChange net buildTotp fpqe s =
         ({ s with message := some "messagePasswordMismatch" }, [])) ∧
    (∀ (net : CUNet) (buildTotp : String → TotpPayload) (fpqe : String → Option String)
       (s : CState) (next : CUStatus),
       s.password ≠ "" → s.password = s.passwordConfirm →
       net (.password s.password) = .ok next →
       next.warnings.contains .mfaRequired = true →
       (submitPasswordChange net buildTotp fpqe s).2 =
         [.password s.password, .totpgenerate] ∧
       (submitPasswordChange net buildTotp fpqe s).1.totpModalOpen = true) := by
  constructor
  · intro net buildTotp fpqe s h
    simp only [submitPasswordChange]
    rw [if_pos h]
  · intro net buildTotp fpqe s next hne hpc hnet hw
    have hng : ¬(s.password = "" ∨ s.password ≠ s.passwordConfirm) := by
      rintro (h | h)
      · exact hne h
      · exact h hpc
    simp only [submitPasswordChange]
    rw [if_neg hng]
    simp only [hnet]
    rw [if_pos hw]
    have hshape := beginTotpEnrollment_shape net buildTotp
      { s with loading := true, totpCancelled := false, status := next,
               password := "", passwordConfirm := "", showPasswordForm := false,
               passwordNotice := some "messagePasswordSetNotice",
               message := some "messagePasswordStaged" }
    exact ⟨by simp [hshape.1], by simp [hshape.2]⟩

/-- Witness for C5: the scenario from the spec — matching non-empty
password, a staged-password response warning `MfaRequired`, then a TOTP
generation response; and the local rejection of a mismatch. -/
theorem submitPasswordChange_c5_witness :
    (submitPasswordChange
        (fun i => match i with
          | .password _ => .ok ⟨[.mfaRequired], .noneState, none, [], false⟩
          | .totpgenerate => .ok ⟨[.mfaRequired], .totpCheck "secret", none, [], false⟩
          | _ => .error "unexpected")
        (fun secret => ⟨secret⟩) (fun _ => none)
        ⟨"Abc123!!", "Abc123!!", true, "", false, none, none, none, "", "", none,
          false, false, none, false, false, ⟨[], .noneState, none, [], true⟩, none⟩).2 =
      [.password "Abc123!!", .totpgenerate] ∧
    (submitPasswordChange
        (fun i => match i with
          | .password _ => .ok ⟨[.mfaRequired], .noneState, none, [], false⟩
          | .totpgenerate => .ok ⟨[.mfaRequired], .totpCheck "secret", none, [], false⟩
          | _ => .error "unexpected")
        (fun secret => ⟨secret⟩) (fun _ => none)
        ⟨"Abc123!!", "Abc123!!", true, "", false, none, none, none, "", "", none,
          false, false, none, false, false, ⟨[], .noneState, none, [], true⟩, none⟩).1.totpModalOpen =
      true ∧
    submitPasswordChange
        (fun _ => .error "unexpected") (fun secret => ⟨secret⟩) (fun _ => none)
        ⟨"Abc123!!", "Different1!", true, "", false, none, none, none, "", "", none,
          false, false, none, false, false, ⟨[], .noneState, none, [], true⟩, none⟩ =
      ({ password := "Abc123!!", passwordConfirm := "Different1!", showPasswordForm := true,
         passkeyLabel := "", passkeyLabelOpen := false, pendingPasskey := none,
         totpPayload := none, totpQr := none, totpLabel := "", totpCode := "",
         totpError := none, totpModalOpen := false, totpSha1Warning := false,
         passwordNotice := none, totpCancelled := false, loading := false,
         status := ⟨[], .noneState, none, [], true⟩,
         message := some "messagePasswordMismatch" }, []) := by
  refine ⟨?_, ?_, ?_⟩
  · exact (submitPasswordChange_c5.2 _ _ _ _ ⟨[.mfaRequired], .noneState, none, [], false⟩
      (by decide) rfl rfl (by decide)).1
  · exact (submitPasswordChange_c5.2 _ _ _ _ ⟨[.mfaRequired], .noneState, none, [], false⟩
      (by decide) rfl rfl (by decide)).2
  · exact submitPasswordChange_c5.1 _ _ _ _ (by right; decide)

/-- C6: for every successful `verifyTotp`/`acceptTotpSha1` response, the
returned `mfaregstate` drives exactly three retry outcomes —
`TotpInvalidSha1` sets the accept-anyway offer, `TotpTryAgain` sets an
error message while the modal state and the displayed provisioning
payload and QR stay unchanged, `TotpNameTryAgain(name)` sets a
label-retry error echoing the rejected name — and any other response
value closes the TOTP modal and clears its secret payload, QR, label
and code; the returned status replaces the snapshot in every case. -/
theorem submitTotpEnrollment_c6 :
    ∀ (net : CUNet) (toNum : String → Option Int) (acceptSha1 : Bool) (s : CState)
      (p : TotpPayload) (next : CUStatus),
      s.totpPayload = some p →
      (acceptSha1 = true ∨ (jsTrim s.totpLabel ≠ "" ∧ jsTrim s.totpCode ≠ "")) →
      net (if acceptSha1 then CUIntent.totpacceptsha1
           else CUIntent.totpverify (toNum s.totpCode) (jsTrim s.totpLabel)) = .ok next →
      ((next.mfaregstate = .totpInvalidSha1 →
         (submitTotpEnrollment net toNum acceptSha1 s).1.totpSha1Warning = true ∧
         (submitTotpEnrollment net toNum acceptSha1 s).1.totpError = some "messageTotpSha1" ∧
         (submitTotpEnrollment net toNum acceptSha1 s).1.totpModalOpen = s.totpModalOpen ∧
         (submitTotpEnrollment net toNum acceptSha1 s).1.status = next) ∧
       (next.mfaregstate = .totpTryAgain →
         (submitTotpEnrollment net toNum acceptSha1 s).1.totpError =
           some "messageTotpTryAgain" ∧
         (submitTotpEnrollment net toNum acceptSha1 s).1.totpModalOpen = s.totpModalOpen ∧
         (submitTotpEnrollment net toNum acceptSha1 s).1.totpPayload = s.totpPayload ∧
         (submitTotpEnrollment net toNum acceptSha1 s).1.totpQr = s.totpQr ∧
         (submitTotpEnrollment net toNum acceptSha1 s).1.status = next) ∧
       (∀ name, next.mfaregstate = .totpNameTryAgain name →
         (submitTotpEnrollment net toNum acceptSha1 s).1.totpError =
           some ("messageTotpNameInvalid " ++ name) ∧
         (submitTotpEnrollment net toNum acceptSha1 s).1.status = next) ∧
       ((next.mfaregstate ≠ .totpInvalidSha1 ∧ next.mfaregstate ≠ .totpTryAgain ∧
         ∀ name, next.mfaregstate ≠ .totpNameTryAgain name) →
         (submitTotpEnrollment net toNum acceptSha1 s).1.totpModalOpen = false ∧
         (submitTotpEnrollment net toNum acceptSha1 s).1.totpPayload = none ∧
         (submitTotpEnrollment net toNum acceptSha1 s).1.totpQr = none ∧
         (submitTotpEnrollment net toNum acceptSha1 s).1.totpLabel = "" ∧
         (submitTotpEnrollment net toNum acceptSha1 s).1.totpCode = "" ∧
         (submitTotpEnrollment net toNum acceptSha1 s).1.status = next)) := by
  intro net toNum acceptSha1 s p next hp hguard hnet
  have hres := submitTotpEnrollment_ok net toNum acceptSha1 s p next hp hguard hnet
  refine ⟨?_, ?_, ?_, ?_⟩
  · intro hm
    rw [hres, hm]
    simp
  · intro hm
    rw [hres, hm]
    simp
  · intro name hm
    rw [hres, hm]
    simp
  · rintro ⟨h1, h2, h3⟩
    rw [hres]
    cases hm : next.mfaregstate with
    | totpInvalidSha1 => exact absurd hm h1
    | totpTryAgain => exact absurd hm h2
    | totpNameTryAgain name => exact absurd hm (h3 name)
    | noneState => simp
    | passkeyState challenge => simp
    | totpCheck secret => simp

/-- Witness for C6: the spec scenario — a `TotpTryAgain` response leaves
the modal open and the provisioning payload and QR unchanged — and a
closing `noneState` response clears the modal fields. -/
theorem submitTotpEnrollment_c6_witness :
    ((submitTotpEnrollment (fun _ => .ok ⟨[], .totpTryAgain, none, [], true⟩)
        (fun _ => some 123456) false
        ⟨"", "", false, "", false, none, some ⟨"otpauth-uri"⟩, some "qr-data", "tag", "123456",
          none, true, false, none, false, false, ⟨[], .totpCheck "secret", none, [], true⟩,
          none⟩).1.totpError = some "messageTotpTryAgain" ∧
     (submitTotpEnrollment (fun _ => .ok ⟨[], .totpTryAgain, none, [], true⟩)
        (fun _ => some 123456) false
        ⟨"", "", false, "", false, none, some ⟨"otpauth-uri"⟩, some "qr-data", "tag", "123456",
          none, true, false, none, false, false, ⟨[], .totpCheck "secret", none, [], true⟩,
          none⟩).1.totpModalOpen = true ∧
     (submitTotpEnrollment (fun _ => .ok ⟨[], .totpTryAgain, none, [], true⟩)
        (fun _ => some 123456) false
        ⟨"", "", false, "", false, none, some ⟨"otpauth-uri"⟩, some "qr-data", "tag", "123456",
          none, true, false, none, false, false, ⟨[], .totpCheck "secret", none, [], true⟩,
          none⟩).1.totpPayload = some ⟨"otpauth-uri"⟩ ∧
     (submitTotpEnrollment (fun _ => .ok ⟨[], .totpTryAgain, none, [], true⟩)
        (fun _ => some 123456) false
        ⟨"", "", false, "", false, none, some ⟨"otpauth-uri"⟩, some "qr-data", "tag", "123456",
          none, true, false, none, false, false, ⟨[], .totpCheck "secret", none, [], true⟩,
          none⟩).1.totpQr = some "qr-data") ∧
    ((submitTotpEnrollment (fun _ => .ok ⟨[], .noneState, none, [], true⟩)
        (fun _ => some 123456) false
        ⟨"", "", false, "", false, none, some ⟨"otpauth-uri"⟩, some "qr-data", "tag", "123456",
          none, true, false, none, false, false, ⟨[], .totpCheck "secret", none, [], true⟩,
          none⟩).1.totpModalOpen = false ∧
     (submitTotpEnrollment (fun _ => .ok ⟨[], .noneState, none, [], true⟩)
        (fun _ => some 123456) false
        ⟨"", "", false, "", false, none, some ⟨"otpauth-uri"⟩, some "qr-data", "tag", "123456",
          none, true, false, none, false, false, ⟨[], .totpCheck "secret", none, [], true⟩,
          none⟩).1.totpPayload = none) := by
  constructor
  · have h := (submitTotpEnrollment_c6 (fun _ => .ok ⟨[], .totpTryAgain, none, [], true⟩)
      (fun _ => some 123456) false
      ⟨"", "", false, "", false, none, some ⟨"otpauth-uri"⟩, some "qr-data", "tag", "123456",
        none, true, false, none, false, false, ⟨[], .totpCheck "secret", none, [], true⟩,
        none⟩ ⟨"otpauth-uri"⟩ ⟨[], .totpTryAgain, none, [], true⟩
      rfl (by right; constructor <;> decide) rfl).2.1 rfl
    exact ⟨h.1, h.2.1, h.2.2.1, h.2.2.2.1⟩
  · have h := (submitTotpEnrollment_c6 (fun _ => .ok ⟨[], .noneState, none, [], true⟩)
      (fun _ => some 123456) false
      ⟨"", "", false, "", false, none, some ⟨"otpauth-uri"⟩, some "qr-data", "tag", "123456",
        none, true, false, none, false, false, ⟨[], .totpCheck "secret", none, [], true⟩,
        none⟩ ⟨"otpauth-uri"⟩ ⟨[], .noneState, none, [], true⟩
      rfl (by right; constructor <;> decide) rfl).2.2.2
      ⟨by decide, by decide, fun name => by simp⟩
    exact ⟨h.1, h.2.1⟩

/-- C7: for every credential-update operation, a transport error (the
network oracle throwing `e`) or a pre-network validation error leaves
the cached `CUStatus` snapshot unchanged — only a successful response
replaces it — and the error is surfaced as a message string scoped to
the active sub-flow: `message` for the passkey and password flows,
`totpError` for the TOTP flow.  Every operation is total (the source
wraps each in a catch-all), so no error escapes. -/
theorem cusErrorSemantics_c7 :
    ∀ (e : String) (s : CState) (uuid registration : String)
      (ceremony : String → Except String String) (buildTotp : String → TotpPayload)
      (toNum : String → Option Int) (fpqe : String → Option String),
      ((beginPasskeyEnrollment (fun _ => .error e) ceremony s).1.status = s.status ∧
       (beginPasskeyEnrollment (fun _ => .error e) ceremony s).1.message = some e) ∧
      (∀ (net : CUNet) (initStatus : CUStatus) (challenge : String),
        net .passkeyinit = .ok initStatus →
        extractPasskeyChallenge initStatus.mfaregstate = some challenge →
        (beginPasskeyEnrollment net (fun _ => .error e) s).1.status = s.status ∧
        (beginPasskeyEnrollment net (fun _ => .error e) s).1.message = some e) ∧
      (s.pendingPasskey = some registration → jsTrim s.passkeyLabel ≠ "" →
        (submitPasskeyLabel (fun _ => .error e) s).1.status = s.status ∧
        (submitPasskeyLabel (fun _ => .error e) s).1.message = some e) ∧
      (s.pendingPasskey = some registration → jsTrim s.passkeyLabel = "" →
        submitPasskeyLabel (fun _ => .error e) s =
          ({ s with message := some "messagePasskeyLabelRequired" }, [])) ∧
      ((removePasskey (fun _ => .error e) uuid s).1.status = s.status ∧
       (removePasskey (fun _ => .error e) uuid s).1.message = some e) ∧
      (s.password ≠ "" → s.password = s.passwordConfirm →
        (submitPasswordChange (fun _ => .error e) buildTotp fpqe s).1.status = s.status ∧
        (submitPasswordChange (fun _ => .error e) buildTotp fpqe s).1.message =
          some ((fpqe e).getD e)) ∧
      ((beginTotpEnrollment (fun _ => .error e) buildTotp s).1.status = s.status ∧
       (beginTotpEnrollment (fun _ => .error e) buildTotp s).1.totpError = some e) ∧
      (∀ (acceptSha1 : Bool) (p : TotpPayload), s.totpPayload = some p →
        (acceptSha1 = true ∨ (jsTrim s.totpLabel ≠ "" ∧ jsTrim s.totpCode ≠ "")) →
        (submitTotpEnrollment (fun _ => .error e) toNum acceptSha1 s).1.status = s.status ∧
        (submitTotpEnrollment (fun _ => .error e) toNum acceptSha1 s).1.totpError = some e) ∧
      ((cancelTotpEnrollment (fun _ => .error e) s).1.status = s.status ∧
       (cancelTotpEnrollment (fun _ => .error e) s).1.totpError = some e) ∧
      ((removePrimaryCredential (fun _ => .error e) s).1.status = s.status ∧
       (removePrimaryCredential (fun _ => .error e) s).1.message = some e) := by
  intro e s uuid registration ceremony buildTotp toNum fpqe
  refine ⟨?_, ?_, ?_, ?_, ?_, ?_, ?_, ?_, ?_, ?_⟩
  · constructor <;> simp [beginPasskeyEnrollment]
  · intro net initStatus challenge hnet hch
    constructor <;> simp [beginPasskeyEnrollment, hnet, hch]
  · intro hpend hlabel
    constructor <;> simp [submitPasskeyLabel, hpend, hlabel]
  · intro hpend hlabel
    simp [submitPasskeyLabel, hpend, hlabel]
  · constructor <;> simp [removePasskey]
  · intro hne hpc
    have hng : ¬(s.password = "" ∨ s.password ≠ s.passwordConfirm) := by
      rintro (h | h)
      · exact hne h
      · exact h hpc
    constructor <;> simp [submitPasswordChange, hng]
  · constructor <;>
      (cases hp : s.totpPayload <;> simp [beginTotpEnrollment, hp])
  · intro acceptSha1 p hp hguard
    have hng : ¬(acceptSha1 = false ∧ (jsTrim s.totpLabel = "" ∨ jsTrim s.totpCode = "")) := by
      rintro ⟨hfalse, hdisj⟩
      rcases hguard with htrue | ⟨hl, hc⟩
      · rw [htrue] at hfalse
        exact absurd hfalse (by decide)
      · rcases hdisj with h | h
        · exact hl h
        · exact hc h
    constructor <;> simp [submitTotpEnrollment, hp, hng]
  · constructor <;> simp [cancelTotpEnrollment]
  · constructor <;> simp [removePrimaryCredential]

/-- Witness for C7: on a concrete state mid-TOTP-flow with a pending
passkey, a transport failure with message `boom` leaves the status
snapshot unchanged and lands in the scoped message field for each
operation. -/
theorem cusErrorSemantics_c7_witness :
    ((beginPasskeyEnrollment (fun _ => .error "boom") (fun _ => .ok "reg")
        ⟨"", "", false, "tag", true, some "reg", some ⟨"u"⟩, some "q", "t", "1", none,
          true, false, none, false, false, ⟨[], .noneState, none, [], true⟩,
          none⟩).1.status = ⟨[], .noneState, none, [], true⟩ ∧
     (beginPasskeyEnrollment (fun _ => .error "boom") (fun _ => .ok "reg")
        ⟨"", "", false, "tag", true, some "reg", some ⟨"u"⟩, some "q", "t", "1", none,
          true, false, none, false, false, ⟨[], .noneState, none, [], true⟩,
          none⟩).1.message = some "boom") ∧
    ((submitPasskeyLabel (fun _ => .error "boom")
        ⟨"", "", false, "tag", true, some "reg", some ⟨"u"⟩, some "q", "t", "1", none,
          true, false, none, false, false, ⟨[], .noneState, none, [], true⟩,
          none⟩).1.status = ⟨[], .noneState, none, [], true⟩ ∧
     (submitPasskeyLabel (fun _ => .error "boom")
        ⟨"", "", false, "tag", true, some "reg", some ⟨"u"⟩, some "q", "t", "1", none,
          true, false, none, false, false, ⟨[], .noneState, none, [], true⟩,
          none⟩).1.message = some "boom") ∧
    ((cancelTotpEnrollment (fun _ => .error "boom")
        ⟨"", "", false, "tag", true, some "reg", some ⟨"u"⟩, some "q", "t", "1", none,
          true, false, none, false, false, ⟨[], .noneState, none, [], true⟩,
          none⟩).1.status = ⟨[], .noneState, none, [], true⟩ ∧
     (cancelTotpEnrollment (fun _ => .error "boom")
        ⟨"", "", false, "tag", true, some "reg", some ⟨"u"⟩, some "q", "t", "1", none,
          true, false, none, false, false, ⟨[], .noneState, none, [], true⟩,
          none⟩).1.totpError = some "boom") := by
  refine ⟨?_, ?_, ?_⟩
  · exact (cusErrorSemantics_c7 "boom"
      ⟨"", "", false, "tag", true, some "reg", some ⟨"u"⟩, some "q", "t", "1", none,
        true, false, none, false, false, ⟨[], .noneState, none, [], true⟩, none⟩
      "u" "reg" (fun _ => .ok "reg") (fun sec => ⟨sec⟩) (fun _ => none) (fun _ => none)).1
  · exact (cusErrorSemantics_c7 "boom"
      ⟨"", "", false, "tag", true, some "reg", some ⟨"u"⟩, some "q", "t", "1", none,
        true, false, none, false, false, ⟨[], .noneState, none, [], true⟩, none⟩
      "u" "reg" (fun _ => .ok "reg") (fun sec => ⟨sec⟩) (fun _ => none)
      (fun _ => none)).2.2.1 rfl (by decide)
  · exact (cusErrorSemantics_c7 "boom"
      ⟨"", "", false, "tag", true, some "reg", some ⟨"u"⟩, some "q", "t", "1", none,
        true, false, none, false, false, ⟨[], .noneState, none, [], true⟩, none⟩
      "u" "reg" (fun _ => .ok "reg") (fun sec => ⟨sec⟩) (fun _ => none)
      (fun _ => none)).2.2.2.2.2.2.2.2.1
